import Mathlib

/-!
Verification of the authentication and authorization core of the
team-manager backend (`src/backend/server.js`, schema in
`src/backend/init.sql`).

The embedding is a shallow one: each Express route handler becomes a pure
Lean function from the database state and the request data to an HTTP
response (status code plus a structured body) and the resulting database
state.  SQL queries over the tables become list lookups over the
corresponding lists of rows, translated clause by clause from the SQL text
in the handlers.
-/

namespace TeamManager

/-! ## Data model (rows of the tables in init.sql) -/

/-- A row of the `users` table: `id, name, email, password_hash, role`. -/
structure User where
  id : Nat
  name : String
  email : String
  password_hash : String
  role : String
  deriving Repr, DecidableEq

/-- A row of the `teams` table: `id, admin_id, invite_code` (the columns the
handlers consult). -/
structure Team where
  id : Nat
  admin_id : Nat
  invite_code : String
  deriving Repr, DecidableEq

/-- A row of the `team_memberships` table: `(user_id, team_id, role)`. -/
structure Membership where
  user_id : Nat
  team_id : Nat
  role : String
  deriving Repr, DecidableEq

/-- A row of the `players` table (the columns the handlers read and write). -/
structure Player where
  id : Nat
  team_id : Nat
  name : String
  jersey_number : Nat
  position : String
  role : String
  email : Option String
  deriving Repr, DecidableEq

/-- The scouting payload of a report: the 38 data columns `$3 .. $40` of the
`INSERT INTO scouting_reports` statement, under the camelCase names the
handler reads from the request body.  The handler forwards each value
verbatim, so the row stores the payload wholesale. -/
structure ScoutData where
  height : Option String := none
  weight : Option String := none
  throws : Option String := none
  bats : Option String := none
  birthDate : Option String := none
  school : Option String := none
  parentGuardian : Option String := none
  emergencyContact : Option String := none
  contactAbility : Option String := none
  power : Option String := none
  plateDiscipline : Option String := none
  swingMechanics : Option String := none
  buntingAbility : Option String := none
  clutchHitting : Option String := none
  hittingNotes : Option String := none
  range : Option String := none
  armStrength : Option String := none
  accuracy : Option String := none
  handsGloveWork : Option String := none
  footwork : Option String := none
  gameAwareness : Option String := none
  fieldingNotes : Option String := none
  speed : Option String := none
  baseRunningIQ : Option String := none
  stealAbility : Option String := none
  runningNotes : Option String := none
  fastballVelocity : Option String := none
  control : Option String := none
  command : Option String := none
  curveball : Option String := none
  changeup : Option String := none
  sliderCutter : Option String := none
  pitchingNotes : Option String := none
  overallGrade : Option String := none
  potential : Option String := none
  strengths : Option String := none
  areasForImprovement : Option String := none
  overallSummary : Option String := none
  deriving Repr, DecidableEq, Inhabited

/-- A row of the `scouting_reports` table: `player_id` (UNIQUE), `scout_id`,
and the 38 data columns, stored wholesale as a `ScoutData`. -/
structure Report where
  player_id : Nat
  scout_id : Nat
  fields : ScoutData
  deriving Repr, DecidableEq

/-- The database state: one list of rows per table the auth/authz core
touches, plus the SERIAL counters for the two tables this core inserts
into. -/
structure DB where
  users : List User
  teams : List Team
  memberships : List Membership
  players : List Player
  reports : List Report
  next_user_id : Nat
  next_player_id : Nat
  deriving Repr, DecidableEq

/-! ## External primitives

`bcryptjs` and the express-validator email primitives are third-party
libraries, not code of this repository; they are modelled from the spec
(§4.1 "one-way salted hash + verify", §4.3 "normalize email") as ideal
primitives.  Nothing in the claims depends on their internals. -/

/-- Modelled from the spec: the Password Hasher's `hash` (bcryptjs).  An
ideal one-way hash: the digest is the tagged plaintext; `bcryptCompare`
checks a plaintext against a digest. -/
def bcryptHash (plaintext : String) : String :=
  "bcrypt$10$" ++ plaintext

/-- Modelled from the spec: the Password Hasher's `verify` (bcrypt.compare). -/
def bcryptCompare (plaintext digest : String) : Bool :=
  digest == bcryptHash plaintext

/-- Modelled from the spec: the `.trim()` sanitizer of express-validator
(JavaScript's String.prototype.trim): strip leading and trailing
whitespace. -/
def jsTrim (s : String) : String :=
  ⟨((s.data.dropWhile Char.isWhitespace).reverse.dropWhile
      Char.isWhitespace).reverse⟩

/-- Lowercase every character of a string. -/
def strToLower (s : String) : String :=
  ⟨s.data.map Char.toLower⟩

/-- Modelled from the spec: express-validator's `isEmail` ("valid email
shape").  Simplified shape check; no claim depends on its details. -/
def isEmail (s : String) : Bool :=
  s.data.contains '@' && s.data.head? != some '@' && s.data.getLast? != some '@'

/-- Modelled from the spec: express-validator's `normalizeEmail`
("Normalize email (trim, lowercase)"). -/
def normalizeEmail (s : String) : String :=
  strToLower (jsTrim s)

/-! ## Token Issuer/Verifier (spec §4.2)

`jsonwebtoken` is a third-party library, not code of this repository.
Modelled from the spec: a token embeds `(user_id, role, issued-at,
expiry = now + 7 days)` and is signed with a process-wide secret; the
signature is ideal (it binds the exact payload to the secret), and
verification fails on a malformed token, a bad signature, or an expired
timestamp, with no cause distinguished. -/

/-- The JWT payload the server signs: `{ userId, role }` plus the issued-at
and expiry timestamps `jsonwebtoken` adds for `expiresIn: 7d`. -/
structure Payload where
  userId : Nat
  role : String
  iat : Nat
  exp : Nat
  deriving Repr, DecidableEq

/-- Seconds in the `7d` expiry window of `jwt.sign`. -/
def sevenDays : Nat := 7 * 24 * 60 * 60

/-- An ideal signature: it determines the signing secret and the exact
payload signed. -/
def mkSig (secret : Nat) (p : Payload) : Nat × Payload :=
  (secret, p)

/-- A bearer token as received on the wire: either a string `jwt.verify`
cannot parse at all, or a payload together with a signature. -/
inductive RawToken where
  | malformed : RawToken
  | signed : Payload → Nat × Payload → RawToken
  deriving Repr, DecidableEq

/-- `jwt.sign({userId, role}, secret, {expiresIn: 7d})` at time `now`. -/
def jwtSign (secret : Nat) (userId : Nat) (role : String) (now : Nat) : RawToken :=
  let p : Payload := ⟨userId, role, now, now + sevenDays⟩
  .signed p (mkSig secret p)

/-- `jwt.verify(token, secret)` at time `now`: `some payload` on success,
`none` on a malformed token, a bad signature, or an expired timestamp. -/
def jwtVerify (secret : Nat) (now : Nat) (t : RawToken) : Option Payload :=
  match t with
  | .malformed => none
  | .signed p s => if s = mkSig secret p ∧ now < p.exp then some p else none

/-! ## HTTP responses -/

/-- The JSON bodies the handlers send. -/
inductive ApiBody where
  /-- `res.sendStatus(n)`: no JSON body. -/
  | empty : ApiBody
  /-- `{ error: msg }`. -/
  | msg : String → ApiBody
  /-- `{ errors: [...] }` from express-validator. -/
  | validationErrors : ApiBody
  /-- `{ user: {id, name, email, role}, token }`. -/
  | userToken : Nat → String → String → String → RawToken → ApiBody
  /-- A player row. -/
  | playerRow : Player → ApiBody
  /-- `{ message: msg }`. -/
  | message : String → ApiBody
  /-- A scouting report row. -/
  | reportRow : Report → ApiBody
  deriving Repr, DecidableEq

/-- An HTTP response: status code and JSON body. -/
structure Resp where
  status : Nat
  body : ApiBody
  deriving Repr, DecidableEq

/-! ## Authorization Guard (`authenticateToken`, server.js lines 46-55) -/

/-- The `authenticateToken` middleware: no token in the authorization
header means `res.sendStatus(401)`; a token `jwt.verify` rejects means
`res.sendStatus(403)`; otherwise the decoded payload is attached to the
request (`req.user`) and the handler runs. -/
def authenticateToken (secret now : Nat) (token : Option RawToken) :
    Except Resp Payload :=
  match token with
  | none => .error ⟨401, .empty⟩
  | some t =>
    match jwtVerify secret now t with
    | none => .error ⟨403, .empty⟩
    | some p => .ok p

/-! ## SQL lookups shared by the handlers -/

/-- `SELECT ... FROM users WHERE email = $1`. -/
def findUserByEmail (db : DB) (email : String) : Option User :=
  db.users.find? (fun u => u.email == email)

/-- `SELECT id FROM teams WHERE invite_code = $1`. -/
def findTeamByCode (db : DB) (code : String) : Option Team :=
  db.teams.find? (fun t => t.invite_code == code)

/-- `SELECT id FROM teams WHERE id = $1 AND admin_id = $2`. -/
def findTeamByIdAndAdmin (db : DB) (teamId adminId : Nat) : Option Team :=
  db.teams.find? (fun t => t.id == teamId && t.admin_id == adminId)

/-- `SELECT p.*, t.admin_id FROM players p JOIN teams t ON p.team_id = t.id
WHERE p.id = $1`. -/
def findPlayerWithAdmin (db : DB) (playerId : Nat) : Option (Player × Nat) :=
  (db.players.find? (fun p => p.id == playerId)).bind fun p =>
    (db.teams.find? (fun t => t.id == p.team_id)).map fun t => (p, t.admin_id)

/-- `SELECT id FROM players WHERE team_id = $1 AND jersey_number = $2`. -/
def jerseyTaken (db : DB) (teamId n : Nat) : Bool :=
  db.players.any (fun p => p.team_id == teamId && p.jersey_number == n)

/-- `SELECT id FROM players WHERE team_id = $1 AND jersey_number = $2 AND
id != $3`. -/
def jerseyTakenExcl (db : DB) (teamId n excl : Nat) : Bool :=
  db.players.any (fun p =>
    p.team_id == teamId && p.jersey_number == n && p.id != excl)

/-- `SELECT p.*, tm.user_id FROM players p JOIN teams t ON p.team_id = t.id
JOIN team_memberships tm ON t.id = tm.team_id WHERE p.id = $1 AND
tm.user_id = $2`: does the player exist on a team the user belongs to? -/
def playerAccess (db : DB) (playerId userId : Nat) : Bool :=
  db.players.any (fun p =>
    p.id == playerId &&
    db.teams.any (fun t =>
      t.id == p.team_id &&
      db.memberships.any (fun m => m.team_id == t.id && m.user_id == userId)))

/-! ## Authentication Service: login (server.js lines 81-123) -/

/-- `POST /api/auth/login`: validate, look up the user by (normalized)
email, compare the password, and on success issue a 7-day token.  Both the
unknown-email and the wrong-password branches answer
`401 { error: 'Invalid credentials' }`.  The handler writes nothing. -/
def login (secret now : Nat) (db : DB) (email password : String) : Resp :=
  if !(isEmail email && decide (1 ≤ password.length)) then
    ⟨400, .validationErrors⟩
  else
    let email := normalizeEmail email
    match findUserByEmail db email with
    | none => ⟨401, .msg "Invalid credentials"⟩
    | some user =>
      if !bcryptCompare password user.password_hash then
        ⟨401, .msg "Invalid credentials"⟩
      else
        ⟨200, .userToken user.id user.name user.email user.role
          (jwtSign secret user.id user.role now)⟩

/-! ## Authentication Service: register (server.js lines 143-198) -/

/-- The request body of `POST /api/auth/register`. -/
structure RegisterBody where
  name : String
  email : String
  password : String
  code : String
  role : String
  deriving Repr, DecidableEq

/-- The express-validator chain of the register route: name (trimmed)
length ≥ 2, email shape, password length ≥ 6, code (trimmed) non-empty,
role in {player, parent}. -/
def validRegister (b : RegisterBody) : Bool :=
  decide (2 ≤ (jsTrim b.name).length) && isEmail b.email &&
  decide (6 ≤ b.password.length) && decide (1 ≤ (jsTrim b.code).length) &&
  (b.role == "player" || b.role == "parent")

/-- `POST /api/auth/register`: validate; resolve the invite code to a team
(`Invalid registration code` when absent); check email uniqueness (`User
already exists` when taken); insert the user; insert the membership; issue
a token and answer 201.  The two INSERTs are separate `pool.query` calls
with no transaction around them, and any error thrown between them is
caught by the route's try/catch, which answers
`500 { error: 'Registration failed' }`; `membershipInsertFails` injects a
storage failure into the second INSERT, after which the user row from the
first INSERT remains. -/
def register (secret now : Nat) (membershipInsertFails : Bool) (db : DB)
    (b : RegisterBody) : Resp × DB :=
  if !validRegister b then (⟨400, .validationErrors⟩, db)
  else
    let email := normalizeEmail b.email
    match findTeamByCode db (jsTrim b.code) with
    | none => (⟨400, .msg "Invalid registration code"⟩, db)
    | some team =>
      match findUserByEmail db email with
      | some _ => (⟨400, .msg "User already exists"⟩, db)
      | none =>
        let u : User :=
          ⟨db.next_user_id, (jsTrim b.name), email, bcryptHash b.password, b.role⟩
        let db1 : DB :=
          { db with users := db.users ++ [u],
                    next_user_id := db.next_user_id + 1 }
        if membershipInsertFails then (⟨500, .msg "Registration failed"⟩, db1)
        else
          let db2 : DB :=
            { db1 with
                memberships := db1.memberships ++ [⟨u.id, team.id, b.role⟩] }
          (⟨201, .userToken u.id u.name u.email u.role
              (jwtSign secret u.id u.role now)⟩, db2)

/-! ## Player routes (server.js lines 232-364) -/

/-- The validated player fields shared by `POST /api/players` and
`PUT /api/players/:id`. -/
structure PlayerBody where
  name : String
  jerseyNumber : Nat
  position : String
  role : String
  email : Option String
  deriving Repr, DecidableEq

/-- The allowed `position` values of the player validators. -/
def validPositions : List String :=
  ["Pitcher", "Catcher", "First Base", "Second Base", "Third Base",
   "Shortstop", "Left Field", "Center Field", "Right Field"]

/-- The express-validator chain of the player routes: name (trimmed)
length ≥ 2, jersey number in 0..999, position and role in their allowed
sets, email (when present) a valid email. -/
def validPlayerBody (b : PlayerBody) : Bool :=
  decide (2 ≤ (jsTrim b.name).length) && decide (b.jerseyNumber ≤ 999) &&
  validPositions.contains b.position &&
  ["Starter", "Bench", "Pitcher"].contains b.role &&
  (match b.email with | none => true | some e => isEmail e)

/-- `POST /api/players` (admin only): validate; check the caller is the
admin of `teamId` (`403` otherwise); check the jersey number is free on
that team (`400` otherwise); INSERT the player and answer 201 with the new
row. -/
def postPlayers (db : DB) (user : Payload) (teamId : Nat) (b : PlayerBody) :
    Resp × DB :=
  if !validPlayerBody b then (⟨400, .validationErrors⟩, db)
  else
    match findTeamByIdAndAdmin db teamId user.userId with
    | none => (⟨403, .msg "Not authorized to add players to this team"⟩, db)
    | some _ =>
      if jerseyTaken db teamId b.jerseyNumber then
        (⟨400, .msg "Jersey number already taken"⟩, db)
      else
        let p : Player := ⟨db.next_player_id, teamId, (jsTrim b.name),
          b.jerseyNumber, b.position, b.role, b.email⟩
        (⟨201, .playerRow p⟩,
         { db with players := db.players ++ [p],
                   next_player_id := db.next_player_id + 1 })

/-- `PUT /api/players/:id` (admin only): validate; look up the player
joined with its team (`404` when absent); check the caller is that team's
admin (`403` otherwise); check the jersey number is free on the team
excluding the player being edited (`400` otherwise); UPDATE the row and
answer 200 with it. -/
def putPlayer (db : DB) (user : Payload) (playerId : Nat) (b : PlayerBody) :
    Resp × DB :=
  if !validPlayerBody b then (⟨400, .validationErrors⟩, db)
  else
    match findPlayerWithAdmin db playerId with
    | none => (⟨404, .msg "Player not found"⟩, db)
    | some (p, adminId) =>
      if adminId ≠ user.userId then
        (⟨403, .msg "Not authorized to edit this player"⟩, db)
      else if jerseyTakenExcl db p.team_id b.jerseyNumber playerId then
        (⟨400, .msg "Jersey number already taken"⟩, db)
      else
        let p2 : Player :=
          { p with name := (jsTrim b.name), jersey_number := b.jerseyNumber,
                   position := b.position, role := b.role, email := b.email }
        (⟨200, .playerRow p2⟩,
         { db with players :=
            db.players.map (fun q => if q.id == playerId then p2 else q) })

/-- `DELETE /api/players/:id` (admin only): look up the player joined with
its team (`404` when absent); check the caller is that team's admin (`403`
otherwise); DELETE the row (the schema cascade-deletes the player's
scouting report) and answer 200 with a message. -/
def deletePlayer (db : DB) (user : Payload) (playerId : Nat) : Resp × DB :=
  match findPlayerWithAdmin db playerId with
  | none => (⟨404, .msg "Player not found"⟩, db)
  | some (_, adminId) =>
    if adminId ≠ user.userId then
      (⟨403, .msg "Not authorized to delete this player"⟩, db)
    else
      (⟨200, .message "Player deleted successfully"⟩,
       { db with
          players := db.players.filter (fun q => q.id != playerId),
          reports := db.reports.filter (fun r => r.player_id != playerId) })

/-! ## Scouting report route (server.js lines 367-433) -/

/-- The `INSERT ... ON CONFLICT (player_id) DO UPDATE` of the scouting
route: when a report for the player exists (the UNIQUE constraint on
`player_id`), every data column and `scout_id` are overwritten in place;
otherwise a new row is inserted. -/
def upsertReport (reports : List Report) (playerId scoutId : Nat)
    (d : ScoutData) : List Report :=
  if reports.any (fun r => r.player_id == playerId) then
    reports.map (fun r =>
      if r.player_id == playerId then ⟨playerId, scoutId, d⟩ else r)
  else
    reports ++ [⟨playerId, scoutId, d⟩]

/-- `POST /api/scouting-reports`: check the player exists on a team the
caller is a member of (`404 Player not found or access denied` otherwise);
upsert the report keyed on `player_id` with `scout_id` the caller; answer
201 with the row. -/
def postScoutingReports (db : DB) (user : Payload) (playerId : Nat)
    (d : ScoutData) : Resp × DB :=
  if !playerAccess db playerId user.userId then
    (⟨404, .msg "Player not found or access denied"⟩, db)
  else
    (⟨201, .reportRow ⟨playerId, user.userId, d⟩⟩,
     { db with reports := upsertReport db.reports playerId user.userId d })

/-! ## Concrete fixtures used by witnesses and counterexamples -/

/-- Admin user of the fixture team (id 1). -/
def userA : User := ⟨1, "Coach Johnson", "coach@team.com", bcryptHash "password", "admin"⟩

/-- Non-admin member of the fixture team (id 2). -/
def userB : User := ⟨2, "Mike Johnson", "player@team.com", bcryptHash "password", "player"⟩

/-- Fixture team administered by user 1. -/
def teamT : Team := ⟨10, 1, "TEAM123"⟩

/-- A second fixture team, also administered by user 1. -/
def teamT2 : Team := ⟨11, 1, "TEAM456"⟩

/-- Fixture player on team 10 wearing jersey 12. -/
def playerP : Player := ⟨5, 10, "Mike Johnson", 12, "Pitcher", "Starter", none⟩

/-- A concrete database: two users, two teams, memberships putting both
users on team 10 (only user 1 an admin), one player, and one existing
scouting report for that player. -/
def testDB : DB :=
  ⟨[userA, userB], [teamT, teamT2],
   [⟨1, 10, "admin"⟩, ⟨2, 10, "player"⟩],
   [playerP], [⟨5, 1, default⟩], 3, 6⟩

/-- A valid player body with a jersey number free on both fixture teams. -/
def testBody : PlayerBody := ⟨"New Player", 7, "Catcher", "Starter", none⟩

/-- A valid player body reusing jersey 12 (the fixture player's number). -/
def testBody12 : PlayerBody := ⟨"Mike Johnson", 12, "Pitcher", "Starter", none⟩

/-! ## Helper lemmas -/

/-- `find?` returns the element when it is in the list, satisfies the
predicate, and is the only element of the list doing so. -/
theorem find_eq_some_of_unique {α : Type} {p : α → Bool} {a : α} :
    ∀ {l : List α}, a ∈ l → p a = true →
      (∀ x ∈ l, p x = true → x = a) → l.find? p = some a := by
  intro l
  induction l with
  | nil => intro h; cases h
  | cons b t ih =>
    intro hmem hpa huniq
    by_cases hb : p b = true
    · have hba : b = a := huniq b (by simp) hb
      subst hba
      simp [List.find?_cons_of_pos _ hb]
    · have hmem2 : a ∈ t := by
        rcases List.mem_cons.mp hmem with h | h
        · subst h; exact absurd hpa hb
        · exact h
      rw [List.find?_cons_of_neg _ hb]
      exact ih hmem2 hpa (fun x hx hpx => huniq x (List.mem_cons_of_mem _ hx) hpx)

/-- A jersey conflict with an exclusion implies one without it. -/
theorem jerseyTakenExcl_false {db : DB} {teamId n excl : Nat}
    (h : jerseyTaken db teamId n = false) :
    jerseyTakenExcl db teamId n excl = false := by
  unfold jerseyTaken at h
  unfold jerseyTakenExcl
  rw [List.any_eq_false] at h ⊢
  intro q hq hcontra
  rw [Bool.and_eq_true, Bool.and_eq_true] at hcontra
  exact h q hq (by rw [Bool.and_eq_true]; exact hcontra.1)

/-! ## Claims -/

/-- **C8** (spec-modelled Token Issuer/Verifier, §4.2): verifying a token
immediately after issuing it returns the embedded `{userId, role}` (with
issued-at `now` and expiry `now + 7 days`); verification returns `Invalid`
(`none`) once the expiry has passed, and for any token whose payload or
signature has been altered. -/
theorem c8_token_roundtrip_expiry_tamper (secret u now : Nat) (r : String) :
    jwtVerify secret now (jwtSign secret u r now) =
      some ⟨u, r, now, now + sevenDays⟩ ∧
    (∀ t, now + sevenDays ≤ t →
      jwtVerify secret t (jwtSign secret u r now) = none) ∧
    (∀ p2 : Payload, p2 ≠ ⟨u, r, now, now + sevenDays⟩ →
      jwtVerify secret now
        (.signed p2 (mkSig secret ⟨u, r, now, now + sevenDays⟩)) = none) ∧
    (∀ s2 : Nat × Payload, s2 ≠ mkSig secret ⟨u, r, now, now + sevenDays⟩ →
      jwtVerify secret now (.signed ⟨u, r, now, now + sevenDays⟩ s2) = none) := by
  refine ⟨?_, ?_, ?_, ?_⟩
  · simp [jwtVerify, jwtSign, mkSig, sevenDays]
  · intro t ht
    simp only [jwtVerify, jwtSign, mkSig, sevenDays] at *
    rw [if_neg]
    rintro ⟨-, hlt⟩
    omega
  · intro p2 hne
    simp only [jwtVerify, mkSig]
    rw [if_neg]
    rintro ⟨heq, -⟩
    exact hne (Prod.mk.injEq .. ▸ heq).2.symm
  · intro s2 hne
    simp only [jwtVerify, mkSig]
    rw [if_neg]
    rintro ⟨heq, -⟩
    exact hne heq

/-- Witness for C8 at secret 0, user 1, role "player", issued at time 0:
round-trip succeeds, verification at 7 days + 1 second fails, and a token
with an altered payload or altered signature fails. -/
theorem c8_token_roundtrip_expiry_tamper_witness :
    jwtVerify 0 0 (jwtSign 0 1 "player" 0) = some ⟨1, "player", 0, 604800⟩ ∧
    jwtVerify 0 604801 (jwtSign 0 1 "player" 0) = none ∧
    jwtVerify 0 0 (.signed ⟨2, "player", 0, 604800⟩
      (mkSig 0 ⟨1, "player", 0, 604800⟩)) = none ∧
    jwtVerify 0 0 (.signed ⟨1, "player", 0, 604800⟩
      (1, ⟨1, "player", 0, 604800⟩)) = none := by
  obtain ⟨h1, h2, h3, h4⟩ := c8_token_roundtrip_expiry_tamper 0 1 0 "player"
  exact ⟨h1, h2 604801 (by decide), h3 ⟨2, "player", 0, 604800⟩ (by decide),
         h4 (1, ⟨1, "player", 0, 604800⟩) (by decide)⟩

/-- **C1 counterexample**: the claim says a malformed bearer token is
rejected with 401, the same status as an absent token.  In the code
`authenticateToken` answers `res.sendStatus(403)` whenever `jwt.verify`
errors: at a malformed token the guard answers 403, not 401. -/
theorem c1_counterexample :
    authenticateToken 0 0 (some RawToken.malformed) =
      Except.error ⟨403, ApiBody.empty⟩ ∧
    authenticateToken 0 0 none = Except.error ⟨401, ApiBody.empty⟩ ∧
    (403 : Nat) ≠ 401 := by
  exact ⟨rfl, rfl, by decide⟩

/-- **C1 amended**: an absent bearer token is rejected with 401, while a
token `jwt.verify` rejects (malformed, bad signature, or expired) is
rejected with 403 — not the 401 of the absent-token case. -/
theorem c1_guard_status_codes (secret now : Nat) (t : RawToken)
    (hbad : jwtVerify secret now t = none) :
    authenticateToken secret now none = Except.error ⟨401, ApiBody.empty⟩ ∧
    authenticateToken secret now (some t) = Except.error ⟨403, ApiBody.empty⟩ := by
  refine ⟨rfl, ?_⟩
  simp [authenticateToken, hbad]

/-- Witness for C1: the guard at a missing and at a malformed token. -/
theorem c1_guard_status_codes_witness :
    authenticateToken 0 0 none = Except.error ⟨401, ApiBody.empty⟩ ∧
    authenticateToken 0 0 (some RawToken.malformed) =
      Except.error ⟨403, ApiBody.empty⟩ :=
  c1_guard_status_codes 0 0 RawToken.malformed rfl

/-- **C6**: the login response when the email matches no user equals the
login response when the email matches a user but the password is wrong:
both are exactly `401 { error: 'Invalid credentials' }`. -/
theorem c6_login_enumeration_resistance (secret now : Nat) (db : DB)
    (e1 p1 e2 p2 : String)
    (hv1 : isEmail e1 = true) (hl1 : 1 ≤ p1.length)
    (hv2 : isEmail e2 = true) (hl2 : 1 ≤ p2.length)
    (hnone : findUserByEmail db (normalizeEmail e1) = none)
    (u : User) (hu : findUserByEmail db (normalizeEmail e2) = some u)
    (hwrong : bcryptCompare p2 u.password_hash = false) :
    login secret now db e1 p1 = login secret now db e2 p2 ∧
    login secret now db e1 p1 = ⟨401, ApiBody.msg "Invalid credentials"⟩ := by
  have h1 : login secret now db e1 p1 = ⟨401, ApiBody.msg "Invalid credentials"⟩ := by
    simp [login, hv1, hl1, hnone]
  have h2 : login secret now db e2 p2 = ⟨401, ApiBody.msg "Invalid credentials"⟩ := by
    simp [login, hv2, hl2, hu, hwrong]
  exact ⟨h1.trans h2.symm, h1⟩

/-- Witness for C6: unknown email "ghost@x.com" versus the fixture admin's
email with a wrong password. -/
theorem c6_login_enumeration_resistance_witness :
    login 0 0 testDB "ghost@x.com" "x" = login 0 0 testDB "coach@team.com" "wrong" ∧
    login 0 0 testDB "ghost@x.com" "x" = ⟨401, ApiBody.msg "Invalid credentials"⟩ :=
  c6_login_enumeration_resistance 0 0 testDB "ghost@x.com" "x" "coach@team.com"
    "wrong" (by decide) (by decide) (by decide) (by decide) rfl userA rfl rfl

/-- **C2**: the register route runs its two INSERTs as separate
`pool.query` calls with no transaction.  At the spec's own example input
("Alice", "alice@x.com", "secret1", "TEAM123", "player"), when the
membership INSERT fails the route answers
`500 { error: 'Registration failed' }` while the freshly inserted user
row (id 3) remains with no membership: an orphaned user, contradicting
the required atomicity. -/
theorem c2_orphaned_user_on_membership_failure :
    (register 0 0 true testDB ⟨"Alice", "alice@x.com", "secret1", "TEAM123",
        "player"⟩).1 = ⟨500, ApiBody.msg "Registration failed"⟩ ∧
    (register 0 0 true testDB ⟨"Alice", "alice@x.com", "secret1", "TEAM123",
        "player"⟩).2.users.any (fun u => u.email == "alice@x.com") = true ∧
    (register 0 0 true testDB ⟨"Alice", "alice@x.com", "secret1", "TEAM123",
        "player"⟩).2.memberships.any (fun m => m.user_id == 3) = false := by
  refine ⟨rfl, rfl, rfl⟩

/-- **C3 counterexample**: user 2 is a member of team 10 but not its admin
(the admin is user 1), yet a scouting-report write by user 2 for player 5
of team 10 succeeds with 201 — the write is not rejected, so the guard
does not require being the team's admin. -/
theorem c3_counterexample :
    (postScoutingReports testDB ⟨2, "player", 0, 604800⟩ 5 default).1.status
      = 201 ∧
    (postScoutingReports testDB ⟨2, "player", 0, 604800⟩ 5
        default).2.reports.any (fun r => r.player_id == 5 && r.scout_id == 2)
      = true ∧
    teamT.admin_id ≠ 2 := by
  refine ⟨rfl, rfl, by decide⟩

/-- **C3 amended**: the scouting-report write performs a membership check,
not an admin check: a caller with no membership on the player's owning
team is rejected with `404 Player not found or access denied` and the
database is unchanged, while any caller passing the membership check —
admin or not — gets a 201 and the upsert applied. -/
theorem c3_membership_not_admin_check (db : DB) (user : Payload) (pid : Nat)
    (d : ScoutData) :
    (playerAccess db pid user.userId = false →
      postScoutingReports db user pid d =
        (⟨404, ApiBody.msg "Player not found or access denied"⟩, db)) ∧
    (playerAccess db pid user.userId = true →
      (postScoutingReports db user pid d).1.status = 201 ∧
      (postScoutingReports db user pid d).2.reports =
        upsertReport db.reports pid user.userId d) := by
  constructor
  · intro h
    simp [postScoutingReports, h]
  · intro h
    simp [postScoutingReports, h]

/-- Witness for C3: the non-admin member (user 2) succeeds on player 5,
while the same user is rejected on a player id (99) outside their teams. -/
theorem c3_membership_not_admin_check_witness :
    postScoutingReports testDB ⟨2, "player", 0, 604800⟩ 99 default =
      (⟨404, ApiBody.msg "Player not found or access denied"⟩, testDB) ∧
    (postScoutingReports testDB ⟨2, "player", 0, 604800⟩ 5 default).1.status
      = 201 :=
  ⟨(c3_membership_not_admin_check testDB ⟨2, "player", 0, 604800⟩ 99
      default).1 rfl,
   ((c3_membership_not_admin_check testDB ⟨2, "player", 0, 604800⟩ 5
      default).2 rfl).1⟩

/-- **C5**: for a registration passing structural validation, the invite
code is resolved before the email-uniqueness check: an unknown code
answers `Invalid registration code` whatever the email, and `User already
exists` is answered exactly when the code resolves to a team and the
(normalized) email is already taken. -/
theorem c5_invite_code_before_email (secret now : Nat) (mf : Bool) (db : DB)
    (b : RegisterBody) (hv : validRegister b = true) :
    (findTeamByCode db (jsTrim b.code) = none →
      register secret now mf db b =
        (⟨400, ApiBody.msg "Invalid registration code"⟩, db)) ∧
    (∀ team, findTeamByCode db (jsTrim b.code) = some team →
      ∀ u, findUserByEmail db (normalizeEmail b.email) = some u →
        register secret now mf db b =
          (⟨400, ApiBody.msg "User already exists"⟩, db)) := by
  constructor
  · intro h
    simp [register, hv, h]
  · intro team ht u hu
    simp [register, hv, ht, hu]

/-- Witness for C5 at the fixture database: an invalid code with an
already-taken email still answers `Invalid registration code`; the valid
code TEAM123 with the same taken email answers `User already exists`. -/
theorem c5_invite_code_before_email_witness :
    register 0 0 false testDB ⟨"Alice", "coach@team.com", "secret1", "NOPE",
        "player"⟩ = (⟨400, ApiBody.msg "Invalid registration code"⟩, testDB) ∧
    register 0 0 false testDB ⟨"Alice", "coach@team.com", "secret1",
        "TEAM123", "player"⟩ =
      (⟨400, ApiBody.msg "User already exists"⟩, testDB) :=
  ⟨(c5_invite_code_before_email 0 0 false testDB
      ⟨"Alice", "coach@team.com", "secret1", "NOPE", "player"⟩ rfl).1 rfl,
   (c5_invite_code_before_email 0 0 false testDB
      ⟨"Alice", "coach@team.com", "secret1", "TEAM123", "player"⟩ rfl).2
     teamT rfl userA rfl⟩

/-- **C9**: the role claim of a verified token is never consulted by the
player-mutating or scouting handlers: two requests identical except for
the token's role claim produce the same response and the same database,
because every check uses only the token's userId. -/
theorem c9_role_claim_never_consulted (db : DB) (uid : Nat) (r1 r2 : String)
    (iat ex : Nat) (teamId pid : Nat) (b : PlayerBody) (d : ScoutData) :
    postPlayers db ⟨uid, r1, iat, ex⟩ teamId b =
      postPlayers db ⟨uid, r2, iat, ex⟩ teamId b ∧
    putPlayer db ⟨uid, r1, iat, ex⟩ pid b =
      putPlayer db ⟨uid, r2, iat, ex⟩ pid b ∧
    deletePlayer db ⟨uid, r1, iat, ex⟩ pid =
      deletePlayer db ⟨uid, r2, iat, ex⟩ pid ∧
    postScoutingReports db ⟨uid, r1, iat, ex⟩ pid d =
      postScoutingReports db ⟨uid, r2, iat, ex⟩ pid d :=
  ⟨rfl, rfl, rfl, rfl⟩

/-- The upsert keeps the player_ids of the report rows pairwise distinct
(the schema's UNIQUE constraint on scouting_reports.player_id). -/
theorem pairwise_upsertReport (l : List Report) (pid sid : Nat) (d : ScoutData)
    (hinv : l.Pairwise (fun a b => a.player_id ≠ b.player_id)) :
    (upsertReport l pid sid d).Pairwise
      (fun a b => a.player_id ≠ b.player_id) := by
  unfold upsertReport
  by_cases hc : l.any (fun r => r.player_id == pid) = true
  · rw [if_pos hc]
    refine List.Pairwise.map _ ?_ hinv
    intro a b hab
    by_cases ha : a.player_id = pid
    · rw [if_pos (by simp [ha])]
      by_cases hb : b.player_id = pid
      · exact absurd (ha.trans hb.symm) hab
      · rw [if_neg (by simp [hb])]
        exact fun h => hb h.symm
    · rw [if_neg (by simp [ha])]
      by_cases hb : b.player_id = pid
      · rw [if_pos (by simp [hb])]
        exact ha
      · rw [if_neg (by simp [hb])]
        exact hab
  · rw [if_neg hc]
    rw [List.pairwise_append]
    refine ⟨hinv, by simp, ?_⟩
    intro a ha b hb
    rw [List.mem_singleton] at hb
    subst hb
    have hfalse := List.any_eq_false.mp (Bool.eq_false_iff.mpr hc) a ha
    simpa using hfalse

/-- **C10**: the scouting write is an upsert keyed on player_id: at most
one report per player is kept (row player_ids stay pairwise distinct in
both branches), a write for a player that already has a report replaces
the existing row in place with the new fields and the caller as scout_id,
keeps the table length, and still answers 201. -/
theorem c10_scouting_upsert_single_report (db : DB) (user : Payload)
    (pid : Nat) (d : ScoutData)
    (hacc : playerAccess db pid user.userId = true)
    (hinv : db.reports.Pairwise (fun a b => a.player_id ≠ b.player_id)) :
    (postScoutingReports db user pid d).1.status = 201 ∧
    (postScoutingReports db user pid d).2.reports.Pairwise
      (fun a b => a.player_id ≠ b.player_id) ∧
    (db.reports.any (fun r => r.player_id == pid) = true →
      (postScoutingReports db user pid d).2.reports =
        db.reports.map (fun r =>
          if r.player_id == pid then ⟨pid, user.userId, d⟩ else r) ∧
      (postScoutingReports db user pid d).2.reports.length =
        db.reports.length) := by
  have hout : postScoutingReports db user pid d =
      (⟨201, .reportRow ⟨pid, user.userId, d⟩⟩,
       { db with reports := upsertReport db.reports pid user.userId d }) := by
    simp [postScoutingReports, hacc]
  refine ⟨by rw [hout], ?_, ?_⟩
  · rw [hout]
    exact pairwise_upsertReport db.reports pid user.userId d hinv
  · intro hc
    rw [hout]
    constructor
    · simp [upsertReport, hc]
    · simp [upsertReport, hc]

/-- Witness for C10 at the fixture database, which already holds a report
for player 5 by scout 1: the write by member 2 answers 201 and keeps the
reports table at one row. -/
theorem c10_scouting_upsert_single_report_witness :
    (postScoutingReports testDB ⟨2, "player", 0, 604800⟩ 5 default).1.status
      = 201 ∧
    (postScoutingReports testDB ⟨2, "player", 0, 604800⟩ 5
        default).2.reports.length = testDB.reports.length :=
  ⟨(c10_scouting_upsert_single_report testDB ⟨2, "player", 0, 604800⟩ 5
      default rfl (by decide)).1,
   ((c10_scouting_upsert_single_report testDB ⟨2, "player", 0, 604800⟩ 5
      default rfl (by decide)).2.2 rfl).2⟩

/-- **C4**: for a player owned by team T administered by A, each of the
three player mutations (create on T, update, delete) authenticated as any
user B ≠ A answers 403 with its route's message and leaves the database
unchanged, while the identical requests authenticated as A succeed
(201 create, 200 update, 200 delete). -/
theorem c4_admin_only_player_mutations
    (db : DB) (A B : Nat) (rA rB : String) (iat ex : Nat)
    (T : Team) (p : Player) (b : PlayerBody)
    (hT : T ∈ db.teams) (hadm : T.admin_id = A)
    (hTuniq : ∀ t ∈ db.teams, t.id = T.id → t = T)
    (hp : p ∈ db.players) (hpt : p.team_id = T.id)
    (hpuniq : ∀ q ∈ db.players, q.id = p.id → q = p)
    (hBA : B ≠ A)
    (hvb : validPlayerBody b = true)
    (hfree : jerseyTaken db T.id b.jerseyNumber = false) :
    postPlayers db ⟨B, rB, iat, ex⟩ T.id b =
      (⟨403, ApiBody.msg "Not authorized to add players to this team"⟩, db) ∧
    putPlayer db ⟨B, rB, iat, ex⟩ p.id b =
      (⟨403, ApiBody.msg "Not authorized to edit this player"⟩, db) ∧
    deletePlayer db ⟨B, rB, iat, ex⟩ p.id =
      (⟨403, ApiBody.msg "Not authorized to delete this player"⟩, db) ∧
    (postPlayers db ⟨A, rA, iat, ex⟩ T.id b).1.status = 201 ∧
    (putPlayer db ⟨A, rA, iat, ex⟩ p.id b).1.status = 200 ∧
    (deletePlayer db ⟨A, rA, iat, ex⟩ p.id).1.status = 200 := by
  have hfindB : findTeamByIdAndAdmin db T.id B = none := by
    unfold findTeamByIdAndAdmin
    rw [List.find?_eq_none]
    intro t ht hpred
    rw [Bool.and_eq_true, beq_iff_eq, beq_iff_eq] at hpred
    exact hBA (by rw [← hpred.2, hTuniq t ht hpred.1, hadm])
  have hfindA : findTeamByIdAndAdmin db T.id A = some T := by
    unfold findTeamByIdAndAdmin
    apply find_eq_some_of_unique hT (by simp [hadm])
    intro x hx hpx
    rw [Bool.and_eq_true, beq_iff_eq, beq_iff_eq] at hpx
    exact hTuniq x hx hpx.1
  have hfindp : db.players.find? (fun q => q.id == p.id) = some p := by
    apply find_eq_some_of_unique hp (by simp)
    intro x hx hpx
    rw [beq_iff_eq] at hpx
    exact hpuniq x hx hpx
  have hfindT : db.teams.find? (fun t => t.id == p.team_id) = some T := by
    rw [hpt]
    apply find_eq_some_of_unique hT (by simp)
    intro x hx hpx
    rw [beq_iff_eq] at hpx
    exact hTuniq x hx hpx
  have hpwa : findPlayerWithAdmin db p.id = some (p, A) := by
    simp [findPlayerWithAdmin, hfindp, hfindT, hadm]
  have hexcl : jerseyTakenExcl db p.team_id b.jerseyNumber p.id = false := by
    rw [hpt]
    exact jerseyTakenExcl_false hfree
  refine ⟨?_, ?_, ?_, ?_, ?_, ?_⟩
  · simp [postPlayers, hvb, hfindB]
  · simp [putPlayer, hvb, hpwa, hBA.symm]
  · simp [deletePlayer, hpwa, hBA.symm]
  · simp [postPlayers, hvb, hfindA, hfree]
  · simp [putPlayer, hvb, hpwa, hexcl]
  · simp [deletePlayer, hpwa]

/-- Witness for C4 at the fixture database: team 10 is administered by
user 1, player 5 belongs to it, and user 2 is not the admin. -/
theorem c4_admin_only_player_mutations_witness :
    postPlayers testDB ⟨2, "player", 0, 0⟩ teamT.id testBody =
      (⟨403, ApiBody.msg "Not authorized to add players to this team"⟩,
       testDB) ∧
    putPlayer testDB ⟨2, "player", 0, 0⟩ playerP.id testBody =
      (⟨403, ApiBody.msg "Not authorized to edit this player"⟩, testDB) ∧
    deletePlayer testDB ⟨2, "player", 0, 0⟩ playerP.id =
      (⟨403, ApiBody.msg "Not authorized to delete this player"⟩, testDB) ∧
    (postPlayers testDB ⟨1, "admin", 0, 0⟩ teamT.id testBody).1.status = 201 ∧
    (putPlayer testDB ⟨1, "admin", 0, 0⟩ playerP.id testBody).1.status = 200 ∧
    (deletePlayer testDB ⟨1, "admin", 0, 0⟩ playerP.id).1.status = 200 :=
  c4_admin_only_player_mutations testDB 1 2 "admin" "player" 0 0 teamT
    playerP testBody (by decide) (by decide) (by decide) (by decide)
    (by decide) (by decide) (by decide) (by decide) (by decide)

/-- **C7**: the jersey-number conflict check runs before both player
writes: a create whose jersey number is already held on the target team
answers 400 `Jersey number already taken` and inserts nothing; the same
number on a different team the caller administers succeeds with 201; and
the update's conflict query excludes the player being edited, so an
update keeping the player's own number succeeds with 200. -/
theorem c7_jersey_conflict_checks (db : DB) (user : Payload) (b : PlayerBody)
    (hvb : validPlayerBody b = true) :
    (∀ tid T, findTeamByIdAndAdmin db tid user.userId = some T →
      jerseyTaken db tid b.jerseyNumber = true →
      postPlayers db user tid b =
        (⟨400, ApiBody.msg "Jersey number already taken"⟩, db)) ∧
    (∀ tid T, findTeamByIdAndAdmin db tid user.userId = some T →
      jerseyTaken db tid b.jerseyNumber = false →
      (postPlayers db user tid b).1.status = 201) ∧
    (∀ p : Player, findPlayerWithAdmin db p.id = some (p, user.userId) →
      b.jerseyNumber = p.jersey_number →
      (∀ q1 ∈ db.players, ∀ q2 ∈ db.players, q1.team_id = q2.team_id →
        q1.jersey_number = q2.jersey_number → q1 = q2) →
      (putPlayer db user p.id b).1.status = 200) := by
  refine ⟨?_, ?_, ?_⟩
  · intro tid T hfind hconf
    simp [postPlayers, hvb, hfind, hconf]
  · intro tid T hfind hfree
    simp [postPlayers, hvb, hfind, hfree]
  · intro p hpwa hj huniq
    have hmem : p ∈ db.players := by
      unfold findPlayerWithAdmin at hpwa
      cases hfp : db.players.find? (fun q => q.id == p.id) with
      | none => rw [hfp] at hpwa; simp at hpwa
      | some p0 =>
        rw [hfp] at hpwa
        cases hft : db.teams.find? (fun t => t.id == p0.team_id) with
        | none => rw [Option.some_bind, hft] at hpwa; simp at hpwa
        | some t =>
          rw [Option.some_bind, hft] at hpwa
          simp only [Option.map, Option.some.injEq, Prod.mk.injEq] at hpwa
          have hp0 : p0 = p := hpwa.1
          exact hp0 ▸ List.mem_of_find?_eq_some hfp
    have hexcl : jerseyTakenExcl db p.team_id b.jerseyNumber p.id = false := by
      rw [hj]
      unfold jerseyTakenExcl
      rw [List.any_eq_false]
      intro q hq hcontra
      rw [Bool.and_eq_true, Bool.and_eq_true, beq_iff_eq, beq_iff_eq] at hcontra
      obtain ⟨⟨h1, h2⟩, h3⟩ := hcontra
      have hqp : q = p := huniq q hq p hmem h1 h2
      subst hqp
      rw [bne_iff_ne] at h3
      exact h3 rfl
    simp [putPlayer, hvb, hpwa, hexcl]

/-- Witness for C7 at the fixture database: user 1 administers teams 10
and 11; jersey 12 is taken on team 10 (player 5) and free on team 11;
updating player 5 while keeping jersey 12 succeeds. -/
theorem c7_jersey_conflict_checks_witness :
    postPlayers testDB ⟨1, "admin", 0, 0⟩ 10 testBody12 =
      (⟨400, ApiBody.msg "Jersey number already taken"⟩, testDB) ∧
    (postPlayers testDB ⟨1, "admin", 0, 0⟩ 11 testBody12).1.status = 201 ∧
    (putPlayer testDB ⟨1, "admin", 0, 0⟩ playerP.id testBody12).1.status
      = 200 :=
  ⟨(c7_jersey_conflict_checks testDB ⟨1, "admin", 0, 0⟩ testBody12
      (by decide)).1 10 teamT rfl rfl,
   (c7_jersey_conflict_checks testDB ⟨1, "admin", 0, 0⟩ testBody12
      (by decide)).2.1 11 teamT2 rfl rfl,
   (c7_jersey_conflict_checks testDB ⟨1, "admin", 0, 0⟩ testBody12
      (by decide)).2.2 playerP rfl rfl (by decide)⟩

end TeamManager
